import Mathlib

/-!
Shallow embedding of the goth credential-broker library (workload identity
federation), covering:

* `google/auth/identity_pool.py` — identity-pool credential construction and
  subject-token retrieval;
* `google/auth/transport/aiohttp_requests.py` — the aiohttp `Request` adapter
  and `AuthorizedSession.request` retry/time-budget loop;
* the external-account credential refresh state machine (its module is
  exercised by `tests/test_external_account.py`; the machine itself is
  modelled from the specification, see the doc comments below).

Machine integers do not occur; Python strings become `String`, Python `None`
becomes `Option`, Python exceptions become `Except`/error sums, wall-clock
instants and durations become `Int` (seconds).
-/

/-! ## Identity-pool credentials (`google/auth/identity_pool.py`) -/

/-- The `format` sub-dictionary of a `credential_source` mapping:
`{"type": ..., "subject_token_field_name": ...}`, each key optional. -/
structure FormatDict where
  type : Option String
  subject_token_field_name : Option String
deriving DecidableEq, Repr

/-- The `credential_source` mapping given to the identity-pool constructor.
`none` fields model absent keys (`dict.get` returning `None`). -/
structure CredentialSourceDict where
  file : Option String
  url : Option String
  headers : Option (List (String × String))
  format : Option FormatDict
deriving DecidableEq, Repr

/-- Python truthiness of an optional string: `None` and `""` are falsy. -/
def truthy : Option String → Bool
  | none => false
  | some s => s ≠ ""

/-- The state of a successfully constructed identity-pool credential
(the `_credential_source_*` attributes set by `Credentials.__init__`). -/
structure IdentityPoolCredentials where
  credential_source_file : Option String
  credential_source_url : Option String
  credential_source_format_type : String
  credential_source_field_name : Option String
  success_codes : List Nat
deriving DecidableEq, Repr

/-- Embedding of `identity_pool.Credentials.__init__` (lines 97-132).
The credential-source argument is `none` when Python would receive a value
that is not a `dict`.  A raised `ValueError(msg)` becomes `.error msg`. -/
def identity_pool_init (credential_source : Option CredentialSourceDict)
    (success_codes : List Nat := [200]) : Except String IdentityPoolCredentials :=
  match credential_source with
  | none =>
      -- not a dict: file and url are set to None, so the final check
      -- `not file and not url` fires.
      .error "Missing credential_source"
  | some cs =>
      let file := cs.file
      let url := cs.url
      -- `credential_source.get("format") or {}`
      let fmt := cs.format.getD ⟨none, none⟩
      -- `credential_source_format.get("type") or "text"`
      let ftype := match fmt.type with
        | none => "text"
        | some t => if t = "" then "text" else t
      if ftype ≠ "text" ∧ ftype ≠ "json" then
        .error ("Invalid credential_source format \x27" ++ ftype ++ "\x27")
      else
        let fieldName? : Except String (Option String) :=
          if ftype = "json" then
            match fmt.subject_token_field_name with
            | none =>
                .error "Missing subject_token_field_name for JSON credential_source format"
            | some f => .ok (some f)
          else .ok none
        match fieldName? with
        | .error e => .error e
        | .ok fieldName =>
            if truthy file ∧ truthy url then
              .error "Ambiguous credential_source"
            else if ¬ truthy file ∧ ¬ truthy url then
              .error "Missing credential_source"
            else
              .ok ⟨file, url, ftype, fieldName, success_codes⟩

/-- Errors escaping `retrieve_subject_token`: either a
`google.auth.exceptions.RefreshError(msg)` or a raw (uncaught) Python
exception of the given class name. -/
inductive RetrieveErr where
  | refreshError (msg : String)
  | rawException (pythonClass : String)
deriving DecidableEq, Repr

/-- Result of Python `json.loads` on the retrieved content, at the precision
the source distinguishes: a parse failure (`ValueError`), a JSON object
(fields with string values suffice for this code), or a successfully parsed
non-object document (list, string, number, ...). -/
inductive LoadResult where
  | parseFail
  | jobj (fields : List (String × String))
  | jnonObj
deriving DecidableEq, Repr

/-- The environment a retrieval runs against: the state of the file system /
network, consumed through the opaque read capabilities used by
`_get_file_data` and `_get_url_data`. -/
structure SourceEnv where
  fileExists : Bool
  fileContent : String
  urlStatus : Nat
  urlContent : String
deriving DecidableEq, Repr

/-- Embedding of `Credentials._get_file_data` (lines 148-153). -/
def get_file_data (env : SourceEnv) (filename : String) :
    Except RetrieveErr (String × String) :=
  if ¬ env.fileExists then
    .error (.refreshError ("File \x27" ++ filename ++ "\x27 was not found."))
  else
    .ok (env.fileContent, filename)

/-- Embedding of `Credentials._get_url_data` (lines 155-159), with
`urllib.request.urlopen` consumed as an opaque status/content capability. -/
def get_url_data (env : SourceEnv) (url : String) (success_codes : List Nat) :
    Except RetrieveErr (String × String) :=
  if env.urlStatus ∉ success_codes then
    .error (.refreshError ("Url \x27" ++ url ++ "\x27 was not found."))
  else
    .ok (env.urlContent, url)

/-- Embedding of `Credentials._get_token_data` (lines 142-146).  When neither
source attribute is truthy the Python function returns `None` and the caller
crashes unpacking it (`TypeError`); that branch is unreachable for
credentials built by `identity_pool_init`. -/
def get_token_data (cred : IdentityPoolCredentials) (env : SourceEnv) :
    Except RetrieveErr (String × String) :=
  if truthy cred.credential_source_file then
    get_file_data env (cred.credential_source_file.getD "")
  else if truthy cred.credential_source_url then
    get_url_data env (cred.credential_source_url.getD "") cred.success_codes
  else
    .error (.rawException "TypeError")

/-- Python `str(...)` of an optional string, as interpolated into the error
message (`None` prints as `None`). -/
def pyStr : Option String → String
  | none => "None"
  | some s => s

/-- Embedding of `Credentials._parse_token_data` (lines 161-186).  `loads`
stands for `json.loads`.  A JSON document that is not an object makes the
subscript `response_data[subject_token_field_name]` raise `TypeError`, which
the `except (KeyError, ValueError)` clause does not catch. -/
def parse_token_data (loads : String → LoadResult)
    (token_content : String × String) (format_type : String)
    (subject_token_field_name : Option String) : Except RetrieveErr String :=
  let (content, filename) := token_content
  let tokenE : Except RetrieveErr String :=
    if format_type = "text" then .ok content
    else
      match loads content with
      | .parseFail =>
          .error (.refreshError
            ("Unable to parse subject_token from JSON file \x27" ++ filename ++
              "\x27 using key \x27" ++ pyStr subject_token_field_name ++ "\x27"))
      | .jobj fields =>
          match fields.lookup (pyStr subject_token_field_name) with
          | none =>
              .error (.refreshError
                ("Unable to parse subject_token from JSON file \x27" ++ filename ++
                  "\x27 using key \x27" ++ pyStr subject_token_field_name ++ "\x27"))
          | some v => .ok v
      | .jnonObj => .error (.rawException "TypeError")
  match tokenE with
  | .error e => .error e
  | .ok token =>
      if token = "" then
        .error (.refreshError "Missing subject_token in the credential_source file")
      else
        .ok token

/-- Embedding of `Credentials.retrieve_subject_token` (lines 135-140). -/
def retrieve_subject_token (loads : String → LoadResult)
    (cred : IdentityPoolCredentials) (env : SourceEnv) : Except RetrieveErr String :=
  match get_token_data cred env with
  | .error e => .error e
  | .ok tc =>
      parse_token_data loads tc cred.credential_source_format_type
        cred.credential_source_field_name

/-! ## aiohttp transport (`google/auth/transport/aiohttp_requests.py`) -/

/-- Abstract identifier of an `aiohttp.ClientSession` instance. -/
abbrev ClientSession := Nat

/-- State of a `Request` adapter (its `session` attribute). -/
structure RequestAdapter where
  session : Option ClientSession
deriving DecidableEq, Repr

/-- Embedding of `Request.__init__` (lines 93-95): the constructor body is
`self.session = None`, regardless of the `session` argument. -/
def Request_init (_session : Option ClientSession) : RequestAdapter :=
  { session := none }

/-- Embedding of the session-management part of `Request.__call__`
(lines 128-135): when `self.session is None` a fresh `aiohttp.ClientSession`
(`fresh`) is created and stored; the returned second component is the session
the HTTP request is issued on. -/
def Request_call (st : RequestAdapter) (fresh : ClientSession) :
    RequestAdapter × ClientSession :=
  match st.session with
  | none => ({ session := some fresh }, fresh)
  | some s => (st, s)

/-- Request headers as an association list; `headersInsert` is Python
`headers[key] = value` (replace or append). -/
abbrev Headers := List (String × String)

def headersInsert (h : Headers) (key value : String) : Headers :=
  if (List.lookup key h).isSome then
    h.map (fun kv => if kv.1 = key then (key, value) else kv)
  else
    h ++ [(key, value)]

/-- Configuration of an `AuthorizedSession` (constructor, lines 183-200). -/
structure SessionCfg where
  refresh_status_codes : List Nat
  max_refresh_attempts : Nat
deriving DecidableEq, Repr

/-- The credential object injected into the session, consumed at its
interface boundary: credential state is abstracted to a `String`,
`before_request` transforms state and headers, `refresh` transforms state. -/
structure CredOps where
  before_request : String → Headers → String × Headers
  refresh : String → String

/-- Observable behaviour of attempt number `k` of a logical call: the status
of the underlying response and the wall time (seconds) consumed by each of
the three guarded operations. -/
structure AttemptEnv where
  status : Nat
  beforeTime : Int
  sendTime : Int
  refreshTime : Int
deriving DecidableEq, Repr

/-- Modelled from the spec: `google.auth.transport.requests.TimeoutGuard`
(imported by the async transport but not part of the sources in scope).  The
spec describes a scoped timing guard that raises a timeout-kind error when
the remaining budget is or becomes exhausted and that, on normal completion,
decrements the remaining budget by the elapsed wall time.  `budget = none`
means no budget configured, hence no enforcement.  `.error ()` models the
guard raising `asyncio.TimeoutError` on exit; `.ok r` exposes
`guard.remaining_timeout = r`. -/
def guardExit (budget : Option Int) (elapsed : Int) : Except Unit (Option Int) :=
  match budget with
  | none => .ok none
  | some b => if b - elapsed ≤ 0 then .error () else .ok (some (b - elapsed))

/-- Everything observable about one logical `AuthorizedSession.request` call:
the outcome (`.error ()` = `asyncio.TimeoutError` raised by a guard, `.ok s`
= response with status `s` returned), the number of underlying wrapped
requests issued, the number of forced credential refreshes performed, the
headers dictionary passed to each underlying request (in order of attempts),
and the `headers` argument received at each recursion depth. -/
structure ReqResult where
  outcome : Except Unit Nat
  nCalls : Nat
  nRefreshes : Nat
  sentHeaders : List Headers
  headersSeen : List (Option Headers)

/-- Embedding of `AuthorizedSession.request` (lines 202-325).

* `request_headers = headers.copy() if headers is not None else {}`
  (line 255) — in the pure embedding `copy` is the identity;
* the first `TimeoutGuard` (line 267) wraps `credentials.before_request`
  with budget `remaining_time`, which still equals `max_allowed_time`;
* the second `TimeoutGuard` (line 272) wraps the underlying request — note
  that the source does not reassign `remaining_time` from the first guard,
  so the second guard also receives `max_allowed_time`;
* `remaining_time = guard.remaining_timeout` (line 282) takes effect after
  the second guard;
* on a refresh-triggering status with attempts remaining, the third guard
  (line 304) wraps `credentials.refresh` with the updated budget, the budget
  is updated again (line 312) and the method recurses (line 314) passing the
  original `headers` (line 318) and the incremented attempt counter.

The guards raise on exit, so an operation wrapped by a guard has already run
when the guard raises. -/
def AuthorizedSession_request (cfg : SessionCfg) (ops : CredOps)
    (env : Nat → AttemptEnv) (cred : String) (headers : Option Headers)
    (max_allowed_time : Option Int) (attempt : Nat) : ReqResult :=
  let e := env attempt
  let request_headers : Headers := headers.getD []
  let (cred1, request_headers) := ops.before_request cred request_headers
  let remaining_time := max_allowed_time
  match guardExit remaining_time e.beforeTime with
  | .error _ => ⟨.error (), 0, 0, [], [headers]⟩
  | .ok _ =>
    match guardExit remaining_time e.sendTime with
    | .error _ => ⟨.error (), 1, 0, [request_headers], [headers]⟩
    | .ok rem₂ =>
      if h : e.status ∈ cfg.refresh_status_codes ∧
          attempt < cfg.max_refresh_attempts then
        match guardExit rem₂ e.refreshTime with
        | .error _ => ⟨.error (), 1, 1, [request_headers], [headers]⟩
        | .ok rem₃ =>
          let cred2 := ops.refresh cred1
          let r := AuthorizedSession_request cfg ops env cred2 headers rem₃
            (attempt + 1)
          ⟨r.outcome, 1 + r.nCalls, 1 + r.nRefreshes,
            request_headers :: r.sentHeaders, headers :: r.headersSeen⟩
      else
        ⟨.ok e.status, 1, 0, [request_headers], [headers]⟩
termination_by cfg.max_refresh_attempts - attempt
decreasing_by omega

/-- The budget chain the specification describes (spec §5 "Time budget" and
the `max_allowed_time` docstring): identical to
`AuthorizedSession_request`, except that the remaining budget is reduced by
the elapsed time of the before-request guard before being given to the
underlying-request guard.  Used only to contrast with the source behaviour. -/
def AuthorizedSession_request_specBudget (cfg : SessionCfg) (ops : CredOps)
    (env : Nat → AttemptEnv) (cred : String) (headers : Option Headers)
    (max_allowed_time : Option Int) (attempt : Nat) : ReqResult :=
  let e := env attempt
  let request_headers : Headers := headers.getD []
  let (cred1, request_headers) := ops.before_request cred request_headers
  let remaining_time := max_allowed_time
  match guardExit remaining_time e.beforeTime with
  | .error _ => ⟨.error (), 0, 0, [], [headers]⟩
  | .ok rem₁ =>
    match guardExit rem₁ e.sendTime with
    | .error _ => ⟨.error (), 1, 0, [request_headers], [headers]⟩
    | .ok rem₂ =>
      if h : e.status ∈ cfg.refresh_status_codes ∧
          attempt < cfg.max_refresh_attempts then
        match guardExit rem₂ e.refreshTime with
        | .error _ => ⟨.error (), 1, 1, [request_headers], [headers]⟩
        | .ok rem₃ =>
          let cred2 := ops.refresh cred1
          let r := AuthorizedSession_request_specBudget cfg ops env cred2
            headers rem₃ (attempt + 1)
          ⟨r.outcome, 1 + r.nCalls, 1 + r.nRefreshes,
            request_headers :: r.sentHeaders, headers :: r.headersSeen⟩
      else
        ⟨.ok e.status, 1, 0, [request_headers], [headers]⟩
termination_by cfg.max_refresh_attempts - attempt
decreasing_by omega

/-! ## External-account credentials

`google/auth/external_account.py` is exercised by `tests/test_external_account.py`
but the module itself is not among the sources in scope, so the refresh state
machine is modelled from the specification (§4.2, §4.3, §4.5, §8). -/

/-- Reads a fixed-width run of decimal digits as a number;
`none` when any character is not a digit. -/
def readDigits (cs : List Char) : Option Int :=
  cs.foldl
    (fun acc c =>
      acc.bind fun a =>
        if c.isDigit then some (a * 10 + ((c.toNat : Int) - 48)) else none)
    (some 0)

/-- Days between 1970-01-01 and the given civil date (proleptic Gregorian
calendar); standard days-from-civil computation. -/
def daysFromCivil (y m d : Int) : Int :=
  let y' := if m ≤ 2 then y - 1 else y
  let era := (if 0 ≤ y' then y' else y' - 399) / 400
  let yoe := y' - era * 400
  let mp := (m + 9) % 12
  let doy := (153 * mp + 2) / 5 + d - 1
  let doe := yoe * 365 + yoe / 4 - yoe / 100 + doy
  era * 146097 + doe - 719468

/-- Modelled from the spec: parsing of the impersonation response
`expireTime` field, "an RFC3339 absolute UTC timestamp", i.e. Python
`datetime.datetime.strptime(expire_time, "%Y-%m-%dT%H:%M:%SZ")`
(`tests/test_external_account.py` line 344), mapped to seconds since the
epoch.  `none` models `strptime` raising `ValueError`. -/
def parseRfc3339 (s : String) : Option Int :=
  match s.toList with
  | [y₁, y₂, y₃, y₄, a₁, m₁, m₂, a₂, d₁, d₂, t, h₁, h₂, b₁, n₁, n₂, b₂, s₁, s₂, z] =>
      if a₁ = '-' ∧ a₂ = '-' ∧ t = 'T' ∧ b₁ = ':' ∧ b₂ = ':' ∧ z = 'Z' then
        match readDigits [y₁, y₂, y₃, y₄], readDigits [m₁, m₂],
            readDigits [d₁, d₂], readDigits [h₁, h₂], readDigits [n₁, n₂],
            readDigits [s₁, s₂] with
        | some y, some mo, some d, some h, some mi, some sec =>
            if 1 ≤ mo ∧ mo ≤ 12 ∧ 1 ≤ d ∧ d ≤ 31 ∧ h ≤ 23 ∧ mi ≤ 59 ∧ sec ≤ 59 then
              some (daysFromCivil y mo d * 86400 + h * 3600 + mi * 60 + sec)
            else none
        | _, _, _, _, _, _ => none
      else none
  | _ => none

/-- Outcome of the subject-token retrieval step (§4.1), at the interface the
credential consumes it: a token, or a retrieval failure that surfaces as a
`RefreshError(msg)`. -/
inductive SubjectTokenResult where
  | ok (token : String)
  | err (msg : String)
deriving DecidableEq, Repr

/-- Outcome of the STS token-exchange call (§4.2), at the interface the
credential consumes it: HTTP 200 with `access_token` and `expires_in`
(seconds from now), or a non-200 response parsed as
`{error, error_description, error_uri}`. -/
inductive StsResult where
  | success (access_token : String) (expires_in : Int)
  | protocolError (error error_description error_uri : String)
deriving DecidableEq, Repr

/-- Outcome of the impersonation call (§4.3): HTTP 200 with
`{accessToken, expireTime}` (the latter an RFC3339 string), or any non-200
response. -/
inductive ImpersonationResult where
  | success (accessToken : String) (expireTime : String)
  | failure
deriving DecidableEq, Repr

/-- The network/filesystem behaviour one `refresh(request)` call runs
against. -/
structure RefreshEnv where
  subjectToken : SubjectTokenResult
  sts : StsResult
  impersonation : ImpersonationResult
deriving DecidableEq, Repr

/-- An error surfaced by `refresh`: `google.auth.exceptions.RefreshError` or
the OAuth protocol error (`google.auth.exceptions.OAuthError`) carrying the
`{error, error_description, error_uri}` fields verbatim. -/
inductive AuthError where
  | refreshError (msg : String)
  | oauthError (error error_description error_uri : String)
deriving DecidableEq, Repr

/-- The mutable token state of an external-account credential:
`token` (access token) and `expiry` (absolute timestamp, seconds). -/
structure CredState where
  token : Option String
  expiry : Option Int
deriving DecidableEq, Repr

/-- Immutable configuration relevant to the refresh machine. -/
structure ExtAccountCfg where
  service_account_impersonation_url : Option String
deriving DecidableEq, Repr

/-- Modelled from the spec: `expired` of the external-account credential
(§4.5): "`expired` ⇔ `expiry is not None AND now() + clockSkewTolerance >=
expiry`".  `clockSkew` is the fixed tolerance `_helpers.CLOCK_SKEW`. -/
def credExpired (clockSkew now : Int) (st : CredState) : Bool :=
  match st.expiry with
  | none => false
  | some e => decide (e ≤ now + clockSkew)

/-- Modelled from the spec: `valid` of the external-account credential
(§4.5): "`valid` ⇔ `accessToken is not None AND not expired`". -/
def credValid (clockSkew now : Int) (st : CredState) : Bool :=
  st.token.isSome && ! credExpired clockSkew now st

/-- Modelled from the spec: `external_account.Credentials.refresh(request)`
(§4.5): retrieve the subject token, exchange it at the STS endpoint (success
gives `expiry = now + expires_in`, §4.2), then, when an impersonation URL is
configured, impersonate (success overrides token and expiry with
`accessToken` / parsed `expireTime`, §4.3; any non-200 raises
`RefreshError("Unable to acquire impersonated credentials")`).  Any step's
failure aborts the refresh with an error and produces no new state; an
unparseable `expireTime` on an impersonation success body is likewise
folded into the impersonation `RefreshError` (the spec does not pin this
case down). -/
def extAccountRefresh (cfg : ExtAccountCfg) (env : RefreshEnv) (now : Int) :
    Except AuthError CredState :=
  match env.subjectToken with
  | .err msg => .error (.refreshError msg)
  | .ok _subject_token =>
      match env.sts with
      | .protocolError e d u => .error (.oauthError e d u)
      | .success access_token expires_in =>
          match cfg.service_account_impersonation_url with
          | none => .ok ⟨some access_token, some (now + expires_in)⟩
          | some _ =>
              match env.impersonation with
              | .failure =>
                  .error (.refreshError "Unable to acquire impersonated credentials")
              | .success accessToken expireTime =>
                  match parseRfc3339 expireTime with
                  | none =>
                      .error
                        (.refreshError "Unable to acquire impersonated credentials")
                  | some exp => .ok ⟨some accessToken, some exp⟩

/-- The credential state after a `refresh` call that started in state `st`:
on success the new token/expiry pair is stored, on failure the prior state is
left untouched (the error propagates to the caller). -/
def extAccountRefreshState (cfg : ExtAccountCfg) (env : RefreshEnv)
    (now : Int) (st : CredState) : CredState :=
  match extAccountRefresh cfg env now with
  | .ok st' => st'
  | .error _ => st

/-- Iterated credential state along the retry recursion: state after `n`
forced refreshes, each preceded by the `before_request` of its attempt
(the transport applies `before_request` to a fresh copy of the original
headers at every level). -/
def credAfter (ops : CredOps) (rh : Headers) : Nat → String → String
  | 0, c => c
  | n + 1, c => credAfter ops rh n (ops.refresh (ops.before_request c rh).1)

/-! ## Helper lemmas -/

/-- Invariants of a successfully constructed identity-pool credential. -/
theorem identity_pool_init_ok_inv {src : Option CredentialSourceDict}
    {sc : List Nat} {c : IdentityPoolCredentials}
    (h : identity_pool_init src sc = .ok c) :
    (truthy c.credential_source_file = true ↔ truthy c.credential_source_url = false)
    ∧ (c.credential_source_format_type = "text" ∨
        c.credential_source_format_type = "json")
    ∧ (c.credential_source_format_type = "json" →
        c.credential_source_field_name.isSome = true)
    ∧ c.success_codes = sc := by
  cases src with
  | none => simp [identity_pool_init] at h
  | some cs =>
      simp only [identity_pool_init] at h
      split at h
      · exact absurd h (by simp)
      · split at h
        · exact absurd h (by simp)
        · rename_i hfmt fq fieldName heq
          split at h
          · exact absurd h (by simp)
          · split at h
            · exact absurd h (by simp)
            · rename_i hboth hneither
              rw [not_and_or] at hfmt hneither
              push_neg at hfmt
              obtain ⟨rfl⟩ := Except.ok.inj h
              refine ⟨?_, ?_, ?_, rfl⟩
              · rcases hboth' : truthy cs.file <;> rcases hurl' : truthy cs.url <;>
                  simp_all
              · rcases hfmt with hf | hf
                · exact Or.inl hf
                · exact Or.inr hf
              · intro hj
                rw [if_pos hj] at heq
                split at heq
                · exact absurd heq (by simp)
                · obtain ⟨rfl⟩ := Except.ok.inj heq
                  simp

/-! ## Claim theorems -/

/-- Claim C5: constructing an identity-pool credential fails when both a file
source and a url source are given, when neither is given, and when a
JSON-format source is given without a `subject_token_field_name`; every
successfully constructed credential has exactly one of file/url source set
and, if the format is json, a field name present. -/
theorem identity_pool_source_validation :
    (∀ (cs : CredentialSourceDict) (sc : List Nat),
        truthy cs.file = true → truthy cs.url = true →
        ∀ c, identity_pool_init (some cs) sc ≠ .ok c)
    ∧ (∀ (cs : CredentialSourceDict) (sc : List Nat),
        truthy cs.file = false → truthy cs.url = false →
        ∀ c, identity_pool_init (some cs) sc ≠ .ok c)
    ∧ (∀ (sc : List Nat) (c : IdentityPoolCredentials),
        identity_pool_init none sc ≠ .ok c)
    ∧ (∀ (cs : CredentialSourceDict) (sc : List Nat) (fd : FormatDict),
        cs.format = some fd → fd.type = some "json" →
        fd.subject_token_field_name = none →
        ∀ c, identity_pool_init (some cs) sc ≠ .ok c)
    ∧ (∀ (src : Option CredentialSourceDict) (sc : List Nat)
        (c : IdentityPoolCredentials), identity_pool_init src sc = .ok c →
        (truthy c.credential_source_file = true ↔
          truthy c.credential_source_url = false)
        ∧ (c.credential_source_format_type = "json" →
            c.credential_source_field_name.isSome = true)) := by
  refine ⟨?_, ?_, ?_, ?_, ?_⟩
  · intro cs sc hf hu c h
    simp only [identity_pool_init] at h
    split at h
    · exact absurd h (by simp)
    · split at h
      · exact absurd h (by simp)
      · split at h
        · exact absurd h (by simp)
        · split at h
          · exact absurd h (by simp)
          · rename_i hboth _
            exact hboth ⟨hf, hu⟩
  · intro cs sc hf hu c h
    simp only [identity_pool_init] at h
    split at h
    · exact absurd h (by simp)
    · split at h
      · exact absurd h (by simp)
      · split at h
        · exact absurd h (by simp)
        · split at h
          · exact absurd h (by simp)
          · rename_i hneither
            exact hneither ⟨by simp [hf], by simp [hu]⟩
  · intro sc c
    simp [identity_pool_init]
  · intro cs sc fd hfd hty hfield c h
    simp [identity_pool_init, hfd, hty, hfield] at h
  · intro src sc c h
    obtain ⟨h₁, _, h₃, _⟩ := identity_pool_init_ok_inv h
    exact ⟨h₁, h₃⟩

theorem identity_pool_source_validation_witness :
    (truthy (some "/f") = true ∧ truthy (some "http://u") = true ∧
      ∀ c, identity_pool_init
        (some ⟨some "/f", some "http://u", none, none⟩) [200] ≠ .ok c)
    ∧ (∀ c, identity_pool_init (some ⟨none, some "", none, none⟩) [200] ≠ .ok c)
    ∧ (∀ c, identity_pool_init none [200] ≠ .ok c)
    ∧ (∀ c, identity_pool_init
        (some ⟨some "/f", none, none, some ⟨some "json", none⟩⟩) [200] ≠ .ok c)
    ∧ (identity_pool_init (some ⟨some "/f", none, none,
          some ⟨some "json", some "tok"⟩⟩) [200] =
        .ok ⟨some "/f", none, "json", some "tok", [200]⟩ ∧
        (truthy (some "/f" : Option String) = true ↔
          truthy (none : Option String) = false)) :=
  ⟨⟨by decide, by decide,
      identity_pool_source_validation.1 _ _ (by decide) (by decide)⟩,
    identity_pool_source_validation.2.1 _ _ (by decide) (by decide),
    identity_pool_source_validation.2.2.1 _,
    identity_pool_source_validation.2.2.2.1 _ _ _ rfl rfl rfl,
    by rfl,
    (identity_pool_source_validation.2.2.2.2
      (some ⟨some "/f", none, none, some ⟨some "json", some "tok"⟩⟩) [200]
      ⟨some "/f", none, "json", some "tok", [200]⟩ (by rfl)).1⟩

/-- Claim C6 counterexample: for the constructed JSON-format credential with
field name `tok`, a source file whose content `[1, 2]` parses as JSON but not
as a JSON object (so the field is absent from the parsed document) makes
`retrieve_subject_token` raise a raw `TypeError` — the uncaught result of
subscripting a list with a string key — rather than a `RefreshError`. -/
theorem retrieve_subject_token_raw_type_error :
    identity_pool_init
      (some ⟨some "/f", none, none, some ⟨some "json", some "tok"⟩⟩) [200] =
      .ok ⟨some "/f", none, "json", some "tok", [200]⟩
    ∧ retrieve_subject_token (fun s => if s = "[1, 2]" then .jnonObj else .parseFail)
        ⟨some "/f", none, "json", some "tok", [200]⟩ ⟨true, "[1, 2]", 200, ""⟩ =
        .error (.rawException "TypeError")
    ∧ ∀ msg, retrieve_subject_token
        (fun s => if s = "[1, 2]" then .jnonObj else .parseFail)
        ⟨some "/f", none, "json", some "tok", [200]⟩ ⟨true, "[1, 2]", 200, ""⟩ ≠
        .error (.refreshError msg) := by
  refine ⟨by rfl, by rfl, ?_⟩
  intro msg h
  have h₂ : retrieve_subject_token
      (fun s => if s = "[1, 2]" then .jnonObj else .parseFail)
      ⟨some "/f", none, "json", some "tok", [200]⟩ ⟨true, "[1, 2]", 200, ""⟩ =
      .error (.rawException "TypeError") := by rfl
  rw [h₂] at h
  simp at h

/-- Claim C6 (amended): for every constructed identity-pool credential and a
JSON parser that never yields a non-object document for the relevant content,
`retrieve_subject_token` fails with a `RefreshError` — never a raw
exception — when the file does not exist, when the URL fetch status is not a
success code, when the content of a JSON-format source cannot be parsed as
JSON, when the field name is absent from the parsed JSON object, or when the
extracted token is empty; the JSON-parse and missing-key failures are a
single `RefreshError` naming the origin and the field name.  (Content that
parses to a non-object document instead escapes as an uncaught `TypeError`,
see the counterexample.) -/
theorem retrieve_subject_token_refresh_error_cases
    (loads : String → LoadResult) (src : Option CredentialSourceDict)
    (sc : List Nat) (cred : IdentityPoolCredentials) (env : SourceEnv)
    (hinit : identity_pool_init src sc = .ok cred)
    (hobj : ∀ s, loads s ≠ .jnonObj) :
    (∀ e, retrieve_subject_token loads cred env = .error e →
        ∃ msg, e = .refreshError msg)
    ∧ (∀ fn, cred.credential_source_file = some fn → truthy (some fn) = true →
        env.fileExists = false →
        retrieve_subject_token loads cred env =
          .error (.refreshError ("File \x27" ++ fn ++ "\x27 was not found.")))
    ∧ (∀ u, cred.credential_source_url = some u →
        truthy cred.credential_source_file = false →
        env.urlStatus ∉ cred.success_codes →
        retrieve_subject_token loads cred env =
          .error (.refreshError ("Url \x27" ++ u ++ "\x27 was not found.")))
    ∧ (∀ content origin, get_token_data cred env = .ok (content, origin) →
        cred.credential_source_format_type = "json" →
        loads content = .parseFail →
        retrieve_subject_token loads cred env =
          .error (.refreshError
            ("Unable to parse subject_token from JSON file \x27" ++ origin ++
              "\x27 using key \x27" ++ pyStr cred.credential_source_field_name ++
              "\x27")))
    ∧ (∀ content origin fields,
        get_token_data cred env = .ok (content, origin) →
        cred.credential_source_format_type = "json" →
        loads content = .jobj fields →
        fields.lookup (pyStr cred.credential_source_field_name) = none →
        retrieve_subject_token loads cred env =
          .error (.refreshError
            ("Unable to parse subject_token from JSON file \x27" ++ origin ++
              "\x27 using key \x27" ++ pyStr cred.credential_source_field_name ++
              "\x27")))
    ∧ (∀ content origin, get_token_data cred env = .ok (content, origin) →
        cred.credential_source_format_type = "text" → content = "" →
        retrieve_subject_token loads cred env =
          .error (.refreshError "Missing subject_token in the credential_source file")) := by
  obtain ⟨hxor, _hty, _hfield, _hsc⟩ := identity_pool_init_ok_inv hinit
  refine ⟨?_, ?_, ?_, ?_, ?_, ?_⟩
  · intro e h
    unfold retrieve_subject_token at h
    cases hg : get_token_data cred env with
    | error e' =>
        rw [hg] at h
        dsimp only at h
        replace h : e' = e := by simpa using h
        subst h
        unfold get_token_data at hg
        by_cases hf : truthy cred.credential_source_file = true
        · rw [if_pos hf] at hg
          unfold get_file_data at hg
          split at hg
          · exact ⟨_, (Except.error.inj hg).symm⟩
          · exact absurd hg (by simp)
        · rw [if_neg hf] at hg
          by_cases hu : truthy cred.credential_source_url = true
          · rw [if_pos hu] at hg
            unfold get_url_data at hg
            split at hg
            · exact ⟨_, (Except.error.inj hg).symm⟩
            · exact absurd hg (by simp)
          · have hu' : truthy cred.credential_source_url = false := by
              simpa using hu
            exact absurd (hxor.mpr hu') hf
    | ok tc =>
        rw [hg] at h
        dsimp only at h
        obtain ⟨content, origin⟩ := tc
        unfold parse_token_data at h
        dsimp only at h
        by_cases hfmt' : cred.credential_source_format_type = "text"
        · rw [if_pos hfmt'] at h
          dsimp only at h
          split at h
          · exact ⟨_, (Except.error.inj h).symm⟩
          · exact absurd h (by simp)
        · rw [if_neg hfmt'] at h
          cases hl : loads content with
          | parseFail =>
              rw [hl] at h
              dsimp only at h
              exact ⟨_, (Except.error.inj h).symm⟩
          | jobj fields =>
              rw [hl] at h
              dsimp only at h
              cases hlk : fields.lookup (pyStr cred.credential_source_field_name) with
              | none =>
                  rw [hlk] at h
                  dsimp only at h
                  exact ⟨_, (Except.error.inj h).symm⟩
              | some v =>
                  rw [hlk] at h
                  dsimp only at h
                  split at h
                  · exact ⟨_, (Except.error.inj h).symm⟩
                  · exact absurd h (by simp)
          | jnonObj => exact absurd hl (hobj content)
  · intro fn hfn htf hfe
    have hf : truthy cred.credential_source_file = true := by rw [hfn]; exact htf
    unfold retrieve_subject_token get_token_data
    rw [if_pos hf]
    unfold get_file_data
    rw [if_pos (by simp [hfe])]
    rw [hfn]
    rfl
  · intro u hu hf hst
    have hu' : truthy cred.credential_source_url = true := by
      by_contra hc
      have hc' : truthy cred.credential_source_url = false := by simpa using hc
      have := hxor.mpr hc'
      simp [hf] at this
    unfold retrieve_subject_token get_token_data
    rw [if_neg (by simp [hf]), if_pos hu']
    unfold get_url_data
    rw [if_pos hst]
    rw [hu]
    rfl
  · intro content origin hg hfmt' hload
    unfold retrieve_subject_token
    rw [hg]
    dsimp only
    unfold parse_token_data
    dsimp only
    rw [if_neg (by rw [hfmt']; decide), hload]
  · intro content origin fields hg hfmt' hload hlk
    unfold retrieve_subject_token
    rw [hg]
    dsimp only
    unfold parse_token_data
    dsimp only
    rw [if_neg (by rw [hfmt']; decide), hload]
    dsimp only
    rw [hlk]
  · intro content origin hg hfmt' hc
    unfold retrieve_subject_token
    rw [hg]
    dsimp only
    unfold parse_token_data
    dsimp only
    rw [if_pos hfmt', hc]
    rfl

theorem retrieve_subject_token_refresh_error_cases_witness :
    identity_pool_init (some ⟨some "/f", none, none, none⟩) [200] =
      .ok ⟨some "/f", none, "text", none, [200]⟩
    ∧ (∀ s : String, (fun _ : String => LoadResult.parseFail) s ≠ .jnonObj)
    ∧ retrieve_subject_token (fun _ => .parseFail)
        ⟨some "/f", none, "text", none, [200]⟩ ⟨false, "", 200, ""⟩ =
        .error (.refreshError ("File \x27" ++ "/f" ++ "\x27 was not found.")) :=
  ⟨by rfl, fun s => by simp,
    (retrieve_subject_token_refresh_error_cases (fun _ => .parseFail)
        (some ⟨some "/f", none, none, none⟩) [200]
        ⟨some "/f", none, "text", none, [200]⟩ ⟨false, "", 200, ""⟩
        (by rfl) (fun s => by simp)).2.1 "/f" rfl (by decide) rfl⟩

/-- Claim C7: for every constructed identity-pool credential whose
subject-token retrieval succeeds, text format (also the default when no
format is configured) returns the raw file/URL content verbatim, and json
format returns exactly the string value of the configured
`subject_token_field_name` key of the parsed JSON object. -/
theorem retrieve_subject_token_success_cases
    (loads : String → LoadResult) (src : Option CredentialSourceDict)
    (sc : List Nat) (cred : IdentityPoolCredentials) (env : SourceEnv)
    (hinit : identity_pool_init src sc = .ok cred) :
    (cred.credential_source_format_type = "text" →
      truthy cred.credential_source_file = true → env.fileExists = true →
      env.fileContent ≠ "" →
      retrieve_subject_token loads cred env = .ok env.fileContent)
    ∧ (cred.credential_source_format_type = "text" →
      truthy cred.credential_source_file = false →
      env.urlStatus ∈ cred.success_codes → env.urlContent ≠ "" →
      retrieve_subject_token loads cred env = .ok env.urlContent)
    ∧ (∀ fields v, cred.credential_source_format_type = "json" →
      truthy cred.credential_source_file = true → env.fileExists = true →
      loads env.fileContent = .jobj fields →
      fields.lookup (pyStr cred.credential_source_field_name) = some v →
      v ≠ "" →
      retrieve_subject_token loads cred env = .ok v)
    ∧ (∀ fields v, cred.credential_source_format_type = "json" →
      truthy cred.credential_source_file = false →
      env.urlStatus ∈ cred.success_codes →
      loads env.urlContent = .jobj fields →
      fields.lookup (pyStr cred.credential_source_field_name) = some v →
      v ≠ "" →
      retrieve_subject_token loads cred env = .ok v)
    ∧ (∀ (cs : CredentialSourceDict) (c : IdentityPoolCredentials),
      cs.format = none → identity_pool_init (some cs) sc = .ok c →
      c.credential_source_format_type = "text") := by
  obtain ⟨hxor, _hty, _hfield, _hsc⟩ := identity_pool_init_ok_inv hinit
  have hurl : truthy cred.credential_source_file = false →
      truthy cred.credential_source_url = true := by
    intro hf
    by_contra hc
    have hc' : truthy cred.credential_source_url = false := by simpa using hc
    have := hxor.mpr hc'
    simp [hf] at this
  refine ⟨?_, ?_, ?_, ?_, ?_⟩
  · intro htext hf hfe hne
    unfold retrieve_subject_token get_token_data
    rw [if_pos hf]
    unfold get_file_data
    rw [if_neg (by simp [hfe])]
    unfold parse_token_data
    dsimp only
    rw [if_pos htext]
    dsimp only
    rw [if_neg hne]
  · intro htext hf hst hne
    unfold retrieve_subject_token get_token_data
    rw [if_neg (by simp [hf]), if_pos (hurl hf)]
    unfold get_url_data
    rw [if_neg (by simp [hst])]
    unfold parse_token_data
    dsimp only
    rw [if_pos htext]
    dsimp only
    rw [if_neg hne]
  · intro fields v hjson hf hfe hload hlk hne
    unfold retrieve_subject_token get_token_data
    rw [if_pos hf]
    unfold get_file_data
    rw [if_neg (by simp [hfe])]
    unfold parse_token_data
    dsimp only
    rw [if_neg (by rw [hjson]; decide), hload]
    dsimp only
    rw [hlk]
    dsimp only
    rw [if_neg hne]
  · intro fields v hjson hf hst hload hlk hne
    unfold retrieve_subject_token get_token_data
    rw [if_neg (by simp [hf]), if_pos (hurl hf)]
    unfold get_url_data
    rw [if_neg (by simp [hst])]
    unfold parse_token_data
    dsimp only
    rw [if_neg (by rw [hjson]; decide), hload]
    dsimp only
    rw [hlk]
    dsimp only
    rw [if_neg hne]
  · intro cs c hfmt hinit2
    simp only [identity_pool_init, hfmt] at hinit2
    split at hinit2
    · exact absurd hinit2 (by simp)
    · split at hinit2
      · exact absurd hinit2 (by simp)
      · split at hinit2
        · exact absurd hinit2 (by simp)
        · split at hinit2
          · exact absurd hinit2 (by simp)
          · obtain ⟨rfl⟩ := Except.ok.inj hinit2
            rfl

theorem retrieve_subject_token_success_cases_witness :
    identity_pool_init (some ⟨some "/f", none, none, none⟩) [200] =
      .ok ⟨some "/f", none, "text", none, [200]⟩
    ∧ ("text" = "text" ∧ truthy (some "/f") = true ∧ ("raw-token" : String) ≠ "")
    ∧ retrieve_subject_token (fun _ => .parseFail)
        ⟨some "/f", none, "text", none, [200]⟩ ⟨true, "raw-token", 200, ""⟩ =
        .ok "raw-token" :=
  ⟨by rfl, ⟨rfl, by decide, by decide⟩,
    (retrieve_subject_token_success_cases (fun _ => .parseFail)
        (some ⟨some "/f", none, none, none⟩) [200]
        ⟨some "/f", none, "text", none, [200]⟩ ⟨true, "raw-token", 200, ""⟩
        (by rfl)).1 rfl (by decide) rfl (by decide)⟩

/-- Claim C3: any failing step of an external-account refresh aborts the
whole refresh with a `RefreshError` or an OAuth-protocol error and leaves the
prior token/expiry state exactly as it was: a subject-token retrieval failure
surfaces its `RefreshError`, a non-200 STS response surfaces the OAuth error
fields verbatim, a failed impersonation hop surfaces the fixed
impersonation `RefreshError`; in every error case the stored state is
unchanged. -/
theorem external_account_refresh_error_preserves_state
    (cfg : ExtAccountCfg) (env : RefreshEnv) (now : Int) (st : CredState) :
    (∀ e, extAccountRefresh cfg env now = .error e →
      extAccountRefreshState cfg env now st = st)
    ∧ (∀ msg, env.subjectToken = .err msg →
      extAccountRefresh cfg env now = .error (.refreshError msg))
    ∧ (∀ t a b c, env.subjectToken = .ok t → env.sts = .protocolError a b c →
      extAccountRefresh cfg env now = .error (.oauthError a b c))
    ∧ (∀ t tok ei u, env.subjectToken = .ok t → env.sts = .success tok ei →
      cfg.service_account_impersonation_url = some u →
      env.impersonation = .failure →
      extAccountRefresh cfg env now =
        .error (.refreshError "Unable to acquire impersonated credentials")) := by
  refine ⟨?_, ?_, ?_, ?_⟩
  · intro e h
    unfold extAccountRefreshState
    rw [h]
  · intro msg h
    unfold extAccountRefresh
    rw [h]
  · intro t a b c hsub hsts
    unfold extAccountRefresh
    rw [hsub, hsts]
  · intro t tok ei u hsub hsts himp hfail
    unfold extAccountRefresh
    rw [hsub, hsts, himp, hfail]

theorem external_account_refresh_error_preserves_state_witness :
    (⟨.err "no file", .success "AT" 3600, .failure⟩ : RefreshEnv).subjectToken =
      .err "no file"
    ∧ extAccountRefreshState ⟨none⟩ ⟨.err "no file", .success "AT" 3600, .failure⟩
        0 ⟨some "old", some 99⟩ = ⟨some "old", some 99⟩
    ∧ extAccountRefresh ⟨none⟩ ⟨.err "no file", .success "AT" 3600, .failure⟩ 0 =
      .error (.refreshError "no file") :=
  ⟨rfl,
    (external_account_refresh_error_preserves_state ⟨none⟩
        ⟨.err "no file", .success "AT" 3600, .failure⟩ 0 ⟨some "old", some 99⟩).1
      (.refreshError "no file") (by rfl),
    (external_account_refresh_error_preserves_state ⟨none⟩
        ⟨.err "no file", .success "AT" 3600, .failure⟩ 0 ⟨some "old", some 99⟩).2.1
      "no file" rfl⟩

/-- Claim C4: with an impersonation URL configured, a successful refresh
stores the impersonation response `accessToken` (not the STS access token)
and the parse of the impersonation `expireTime` as an RFC3339 absolute UTC
timestamp; the resulting expiry is independent of the current time (not
now-plus-duration). -/
theorem external_account_refresh_impersonation_overrides
    (cfg : ExtAccountCfg) (env : RefreshEnv) (now : Int) (st : CredState)
    (t tok : String) (ei : Int) (u sa expStr : String) (exp : Int)
    (hu : cfg.service_account_impersonation_url = some u)
    (hsub : env.subjectToken = .ok t)
    (hsts : env.sts = .success tok ei)
    (himp : env.impersonation = .success sa expStr)
    (hparse : parseRfc3339 expStr = some exp) :
    extAccountRefresh cfg env now = .ok ⟨some sa, some exp⟩
    ∧ extAccountRefreshState cfg env now st = ⟨some sa, some exp⟩
    ∧ (∀ now', extAccountRefresh cfg env now' = extAccountRefresh cfg env now) := by
  have hmain : ∀ m : Int, extAccountRefresh cfg env m = .ok ⟨some sa, some exp⟩ := by
    intro m
    unfold extAccountRefresh
    rw [hsub, hsts, hu, himp]
    dsimp only
    rw [hparse]
  refine ⟨hmain now, ?_, fun now' => (hmain now').trans (hmain now).symm⟩
  unfold extAccountRefreshState
  rw [hmain now]

theorem external_account_refresh_impersonation_overrides_witness :
    parseRfc3339 "2020-05-05T10:00:00Z" = some 1588672800
    ∧ extAccountRefresh ⟨some "https://iamcredentials/sa:generateAccessToken"⟩
        ⟨.ok "subj", .success "STS_TOKEN" 3600,
          .success "SA_ACCESS_TOKEN" "2020-05-05T10:00:00Z"⟩ 12345 =
      .ok ⟨some "SA_ACCESS_TOKEN", some 1588672800⟩ :=
  ⟨by decide,
    (external_account_refresh_impersonation_overrides
        ⟨some "https://iamcredentials/sa:generateAccessToken"⟩
        ⟨.ok "subj", .success "STS_TOKEN" 3600,
          .success "SA_ACCESS_TOKEN" "2020-05-05T10:00:00Z"⟩ 12345
        ⟨none, none⟩ "subj" "STS_TOKEN" 3600
        "https://iamcredentials/sa:generateAccessToken" "SA_ACCESS_TOKEN"
        "2020-05-05T10:00:00Z" 1588672800
        rfl rfl rfl rfl (by decide)).1⟩

/-- Claim C8: a successful STS refresh (no impersonation hop) with
`expires_in = N` at reference time `t0` stores expiry `t0 + N`; the
credential is valid iff a token is held and it is not expired, expired iff
an expiry is set and `now + clockSkew ≥ expiry`; hence the refreshed
credential is valid strictly before `expiry - clockSkew` and invalid at or
after that instant. -/
theorem external_account_expiry_and_validity
    (cfg : ExtAccountCfg) (env : RefreshEnv) (t0 N : Int) (t tok : String)
    (himp : cfg.service_account_impersonation_url = none)
    (hsub : env.subjectToken = .ok t)
    (hsts : env.sts = .success tok N) :
    extAccountRefresh cfg env t0 = .ok ⟨some tok, some (t0 + N)⟩
    ∧ (∀ skew now st, credValid skew now st = true ↔
        (st.token.isSome = true ∧ credExpired skew now st = false))
    ∧ (∀ skew now st, credExpired skew now st = true ↔
        ∃ e, st.expiry = some e ∧ e ≤ now + skew)
    ∧ (∀ skew now, credValid skew now ⟨some tok, some (t0 + N)⟩ = true ↔
        now < t0 + N - skew) := by
  refine ⟨?_, ?_, ?_, ?_⟩
  · unfold extAccountRefresh
    rw [hsub, hsts, himp]
  · intro skew now st
    simp [credValid]
  · intro skew now st
    unfold credExpired
    cases st.expiry with
    | none => simp
    | some e => simp
  · intro skew now
    simp only [credValid, credExpired, Option.isSome_some, Bool.true_and,
      Bool.not_eq_true']
    constructor
    · intro h
      have := of_decide_eq_false h
      omega
    · intro h
      rw [decide_eq_false_iff_not]
      omega

theorem external_account_expiry_and_validity_witness :
    extAccountRefresh ⟨none⟩ ⟨.ok "subj", .success "ACCESS_TOKEN" 2800, .failure⟩ 0 =
      .ok ⟨some "ACCESS_TOKEN", some 2800⟩
    ∧ (credValid 10 2789 ⟨some "ACCESS_TOKEN", some (0 + 2800)⟩ = true ↔
        (2789 : Int) < 0 + 2800 - 10) :=
  ⟨(external_account_expiry_and_validity ⟨none⟩
      ⟨.ok "subj", .success "ACCESS_TOKEN" 2800, .failure⟩ 0 2800 "subj"
      "ACCESS_TOKEN" rfl rfl rfl).1.trans (by norm_num),
    (external_account_expiry_and_validity ⟨none⟩
      ⟨.ok "subj", .success "ACCESS_TOKEN" 2800, .failure⟩ 0 2800 "subj"
      "ACCESS_TOKEN" rfl rfl rfl).2.2.2 10 2789⟩

/-- Claim C10: the aiohttp `Request` adapter constructor stores `None` as the
session regardless of the supplied argument, so a caller-supplied
`ClientSession` is never used: the first call lazily creates and uses a
fresh session instead. -/
theorem request_adapter_ignores_supplied_session
    (supplied : ClientSession) (fresh : ClientSession) :
    (∀ s : Option ClientSession, (Request_init s).session = none)
    ∧ (Request_init (some supplied)).session = none
    ∧ (Request_call (Request_init (some supplied)) fresh).2 = fresh
    ∧ (Request_call (Request_init (some supplied)) fresh).1.session = some fresh :=
  ⟨fun _ => rfl, rfl, rfl, rfl⟩

/-- Claim C2 (evaluated at the failing input): with an overall budget of 10
seconds, a before-request phase taking 9 seconds and an underlying request
taking 9 seconds, the source's `request` completes with the 200 response and
never raises a timeout — the second guard receives the full original budget,
because `remaining_time` is not reduced after the before-request guard — 
whereas the budget chain the claim and the method docstring describe (each
guarded operation passing its reduced budget onward) raises the timeout
error at the same input. -/
theorem transport_budget_not_reduced_after_before_request :
    (AuthorizedSession_request ⟨[401], 2⟩ ⟨fun c h => (c, h), id⟩
        (fun _ => ⟨200, 9, 9, 0⟩) "tok" (some []) (some 10) 0).outcome =
      .ok 200
    ∧ (AuthorizedSession_request_specBudget ⟨[401], 2⟩ ⟨fun c h => (c, h), id⟩
        (fun _ => ⟨200, 9, 9, 0⟩) "tok" (some []) (some 10) 0).outcome =
      .error ()
    ∧ (9 : Int) + 9 > 10 := by
  refine ⟨?_, ?_, by norm_num⟩
  · simp [AuthorizedSession_request, guardExit]
  · simp [AuthorizedSession_request_specBudget, guardExit]

theorem AS_request_none_base (cfg : SessionCfg) (ops : CredOps)
    (env : Nat → AttemptEnv) (cred : String) (headers : Option Headers)
    (attempt : Nat)
    (h : ¬ ((env attempt).status ∈ cfg.refresh_status_codes ∧
        attempt < cfg.max_refresh_attempts)) :
    AuthorizedSession_request cfg ops env cred headers none attempt =
      ⟨.ok (env attempt).status, 1, 0,
        [(ops.before_request cred (headers.getD [])).2], [headers]⟩ := by
  unfold AuthorizedSession_request
  dsimp only [guardExit]
  rw [dif_neg h]

theorem AS_request_none_step (cfg : SessionCfg) (ops : CredOps)
    (env : Nat → AttemptEnv) (cred : String) (headers : Option Headers)
    (attempt : Nat)
    (h : (env attempt).status ∈ cfg.refresh_status_codes ∧
        attempt < cfg.max_refresh_attempts) :
    AuthorizedSession_request cfg ops env cred headers none attempt =
      ⟨(AuthorizedSession_request cfg ops env
          (ops.refresh (ops.before_request cred (headers.getD [])).1) headers
          none (attempt + 1)).outcome,
        1 + (AuthorizedSession_request cfg ops env
          (ops.refresh (ops.before_request cred (headers.getD [])).1) headers
          none (attempt + 1)).nCalls,
        1 + (AuthorizedSession_request cfg ops env
          (ops.refresh (ops.before_request cred (headers.getD [])).1) headers
          none (attempt + 1)).nRefreshes,
        (ops.before_request cred (headers.getD [])).2 ::
          (AuthorizedSession_request cfg ops env
            (ops.refresh (ops.before_request cred (headers.getD [])).1) headers
            none (attempt + 1)).sentHeaders,
        headers :: (AuthorizedSession_request cfg ops env
          (ops.refresh (ops.before_request cred (headers.getD [])).1) headers
          none (attempt + 1)).headersSeen⟩ := by
  conv_lhs => unfold AuthorizedSession_request
  dsimp only [guardExit]
  rw [dif_pos h]

/-- Claim C1: for a logical call without a configured time budget, a response
status in the refresh-trigger set with attempts remaining performs exactly
one forced refresh at that level and retries (counts accumulate over the
recursive call); any other response is returned as-is after one underlying
call and no refresh; in particular a trigger status followed by a
non-trigger status with at least one attempt allowed gives exactly two
underlying calls, one forced refresh, and the second response. -/
theorem transport_refresh_retry (cfg : SessionCfg) (ops : CredOps)
    (env : Nat → AttemptEnv) (cred : String) (headers : Option Headers) :
    (∀ attempt c, (env attempt).status ∈ cfg.refresh_status_codes →
      attempt < cfg.max_refresh_attempts →
      AuthorizedSession_request cfg ops env c headers none attempt =
        ⟨(AuthorizedSession_request cfg ops env
            (ops.refresh (ops.before_request c (headers.getD [])).1) headers
            none (attempt + 1)).outcome,
          1 + (AuthorizedSession_request cfg ops env
            (ops.refresh (ops.before_request c (headers.getD [])).1) headers
            none (attempt + 1)).nCalls,
          1 + (AuthorizedSession_request cfg ops env
            (ops.refresh (ops.before_request c (headers.getD [])).1) headers
            none (attempt + 1)).nRefreshes,
          (ops.before_request c (headers.getD [])).2 ::
            (AuthorizedSession_request cfg ops env
              (ops.refresh (ops.before_request c (headers.getD [])).1) headers
              none (attempt + 1)).sentHeaders,
          headers :: (AuthorizedSession_request cfg ops env
            (ops.refresh (ops.before_request c (headers.getD [])).1) headers
            none (attempt + 1)).headersSeen⟩)
    ∧ (∀ attempt c, ((env attempt).status ∉ cfg.refresh_status_codes ∨
        cfg.max_refresh_attempts ≤ attempt) →
      AuthorizedSession_request cfg ops env c headers none attempt =
        ⟨.ok (env attempt).status, 1, 0,
          [(ops.before_request c (headers.getD [])).2], [headers]⟩)
    ∧ ((env 0).status ∈ cfg.refresh_status_codes →
      (env 1).status ∉ cfg.refresh_status_codes →
      1 ≤ cfg.max_refresh_attempts →
      (AuthorizedSession_request cfg ops env cred headers none 0).nCalls = 2
      ∧ (AuthorizedSession_request cfg ops env cred headers none 0).nRefreshes = 1
      ∧ (AuthorizedSession_request cfg ops env cred headers none 0).outcome =
          .ok (env 1).status) := by
  refine ⟨?_, ?_, ?_⟩
  · intro attempt c h1 h2
    exact AS_request_none_step cfg ops env c headers attempt ⟨h1, h2⟩
  · intro attempt c h
    apply AS_request_none_base
    rintro ⟨ha, hb⟩
    rcases h with h | h
    · exact h ha
    · omega
  · intro h401 h200 hmax
    have hstep := AS_request_none_step cfg ops env cred headers 0 ⟨h401, by omega⟩
    have hbase := AS_request_none_base cfg ops env
      (ops.refresh (ops.before_request cred (headers.getD [])).1) headers 1
      (by rintro ⟨ha, _⟩; exact h200 ha)
    rw [hstep, hbase]
    exact ⟨rfl, rfl, rfl⟩

theorem transport_refresh_retry_witness :
    ((401 : Nat) ∈ [401] ∧ (200 : Nat) ∉ ([401] : List Nat) ∧ 1 ≤ 2)
    ∧ (AuthorizedSession_request ⟨[401], 2⟩
        ⟨fun c h => (c, headersInsert h "authorization" c), fun c => c ++ "1"⟩
        (fun k => if k = 0 then ⟨401, 0, 0, 0⟩ else ⟨200, 0, 0, 0⟩)
        "tok" (some [("x", "y")]) none 0).nCalls = 2
    ∧ (AuthorizedSession_request ⟨[401], 2⟩
        ⟨fun c h => (c, headersInsert h "authorization" c), fun c => c ++ "1"⟩
        (fun k => if k = 0 then ⟨401, 0, 0, 0⟩ else ⟨200, 0, 0, 0⟩)
        "tok" (some [("x", "y")]) none 0).nRefreshes = 1
    ∧ (AuthorizedSession_request ⟨[401], 2⟩
        ⟨fun c h => (c, headersInsert h "authorization" c), fun c => c ++ "1"⟩
        (fun k => if k = 0 then ⟨401, 0, 0, 0⟩ else ⟨200, 0, 0, 0⟩)
        "tok" (some [("x", "y")]) none 0).outcome = .ok 200 := by
  have h := (transport_refresh_retry ⟨[401], 2⟩
      ⟨fun c h => (c, headersInsert h "authorization" c), fun c => c ++ "1"⟩
      (fun k => if k = 0 then ⟨401, 0, 0, 0⟩ else ⟨200, 0, 0, 0⟩)
      "tok" (some [("x", "y")])).2.2 (by decide) (by decide) (by decide)
  exact ⟨by decide, h.1, h.2.1, h.2.2⟩

theorem AS_request_eq (cfg : SessionCfg) (ops : CredOps)
    (env : Nat → AttemptEnv) (cred : String) (headers : Option Headers)
    (t : Option Int) (attempt : Nat) :
    AuthorizedSession_request cfg ops env cred headers t attempt =
      match guardExit t (env attempt).beforeTime with
      | .error _ => ⟨.error (), 0, 0, [], [headers]⟩
      | .ok _ =>
        match guardExit t (env attempt).sendTime with
        | .error _ =>
            ⟨.error (), 1, 0, [(ops.before_request cred (headers.getD [])).2],
              [headers]⟩
        | .ok rem₂ =>
          if (env attempt).status ∈ cfg.refresh_status_codes ∧
              attempt < cfg.max_refresh_attempts then
            match guardExit rem₂ (env attempt).refreshTime with
            | .error _ =>
                ⟨.error (), 1, 1,
                  [(ops.before_request cred (headers.getD [])).2], [headers]⟩
            | .ok rem₃ =>
                ⟨(AuthorizedSession_request cfg ops env
                    (ops.refresh (ops.before_request cred (headers.getD [])).1)
                    headers rem₃ (attempt + 1)).outcome,
                  1 + (AuthorizedSession_request cfg ops env
                    (ops.refresh (ops.before_request cred (headers.getD [])).1)
                    headers rem₃ (attempt + 1)).nCalls,
                  1 + (AuthorizedSession_request cfg ops env
                    (ops.refresh (ops.before_request cred (headers.getD [])).1)
                    headers rem₃ (attempt + 1)).nRefreshes,
                  (ops.before_request cred (headers.getD [])).2 ::
                    (AuthorizedSession_request cfg ops env
                      (ops.refresh (ops.before_request cred (headers.getD [])).1)
                      headers rem₃ (attempt + 1)).sentHeaders,
                  headers :: (AuthorizedSession_request cfg ops env
                    (ops.refresh (ops.before_request cred (headers.getD [])).1)
                    headers rem₃ (attempt + 1)).headersSeen⟩
          else
            ⟨.ok (env attempt).status, 1, 0,
              [(ops.before_request cred (headers.getD [])).2], [headers]⟩ := by
  conv_lhs => unfold AuthorizedSession_request
  dsimp only
  rcases guardExit t (env attempt).beforeTime with u | r1
  · rfl
  · dsimp only
    rcases guardExit t (env attempt).sendTime with u | r2
    · rfl
    · dsimp only
      by_cases hc : (env attempt).status ∈ cfg.refresh_status_codes ∧
          attempt < cfg.max_refresh_attempts
      · rw [dif_pos hc, if_pos hc]
      · rw [dif_neg hc, if_neg hc]

theorem AS_request_trace_aux (cfg : SessionCfg) (ops : CredOps)
    (env : Nat → AttemptEnv) (headers : Option Headers) :
    ∀ (n attempt : Nat) (cred : String) (t : Option Int),
      cfg.max_refresh_attempts - attempt ≤ n →
      (∀ x ∈ (AuthorizedSession_request cfg ops env cred headers t attempt).headersSeen,
          x = headers)
      ∧ (∀ i : Nat,
          i < (AuthorizedSession_request cfg ops env cred headers t attempt).sentHeaders.length →
          (AuthorizedSession_request cfg ops env cred headers t attempt).sentHeaders.getD i [] =
            (ops.before_request (credAfter ops (headers.getD []) i cred)
              (headers.getD [])).2) := by
  intro n
  induction n with
  | zero =>
      intro attempt cred t hle
      have hnot : ¬ ((env attempt).status ∈ cfg.refresh_status_codes ∧
          attempt < cfg.max_refresh_attempts) := by
        rintro ⟨_, hlt⟩
        omega
      rw [AS_request_eq]
      rcases guardExit t (env attempt).beforeTime with u | r1
      · refine ⟨?_, ?_⟩
        · intro x hx
          simpa using hx
        · intro i hi
          simp at hi
      · rcases guardExit t (env attempt).sendTime with u | r2
        · refine ⟨?_, ?_⟩
          · intro x hx
            simpa using hx
          · intro i hi
            simp at hi
            subst hi
            rfl
        · dsimp only
          rw [if_neg hnot]
          refine ⟨?_, ?_⟩
          · intro x hx
            simpa using hx
          · intro i hi
            simp at hi
            subst hi
            rfl
  | succ n ih =>
      intro attempt cred t hle
      rw [AS_request_eq]
      rcases guardExit t (env attempt).beforeTime with u | r1
      · refine ⟨?_, ?_⟩
        · intro x hx
          simpa using hx
        · intro i hi
          simp at hi
      · rcases guardExit t (env attempt).sendTime with u | r2
        · refine ⟨?_, ?_⟩
          · intro x hx
            simpa using hx
          · intro i hi
            simp at hi
            subst hi
            rfl
        · dsimp only
          by_cases hc : (env attempt).status ∈ cfg.refresh_status_codes ∧
              attempt < cfg.max_refresh_attempts
          · rw [if_pos hc]
            rcases guardExit r2 (env attempt).refreshTime with u | r3
            · refine ⟨?_, ?_⟩
              · intro x hx
                simpa using hx
              · intro i hi
                simp at hi
                subst hi
                rfl
            · have hrec := ih (attempt + 1)
                (ops.refresh (ops.before_request cred (headers.getD [])).1) r3
                (by omega)
              refine ⟨?_, ?_⟩
              · intro x hx
                rcases List.mem_cons.mp hx with rfl | hx'
                · rfl
                · exact hrec.1 x hx'
              · intro i hi
                cases i with
                | zero => rfl
                | succ j =>
                    simp only [List.length_cons] at hi
                    exact hrec.2 j (by omega)
          · rw [if_neg hc]
            refine ⟨?_, ?_⟩
            · intro x hx
              simpa using hx
            · intro i hi
              simp at hi
              subst hi
              rfl

/-- Claim C9: the caller-supplied headers are never mutated by a logical
call: the recursion at every depth receives the caller's original headers
argument unchanged, and the headers sent with the underlying request of
attempt `i` are computed by applying `before_request` (with the credential
state after `i` forced refreshes) to a fresh copy of the original headers,
not to the previously mutated copy. -/
theorem transport_headers_not_mutated (cfg : SessionCfg) (ops : CredOps)
    (env : Nat → AttemptEnv) (cred : String) (headers : Option Headers)
    (t : Option Int) (attempt : Nat) :
    (∀ x ∈ (AuthorizedSession_request cfg ops env cred headers t attempt).headersSeen,
        x = headers)
    ∧ (∀ i : Nat,
        i < (AuthorizedSession_request cfg ops env cred headers t attempt).sentHeaders.length →
        (AuthorizedSession_request cfg ops env cred headers t attempt).sentHeaders.getD i [] =
          (ops.before_request (credAfter ops (headers.getD []) i cred)
            (headers.getD [])).2) :=
  AS_request_trace_aux cfg ops env headers (cfg.max_refresh_attempts - attempt)
    attempt cred t (Nat.le_refl _)

theorem transport_headers_not_mutated_witness :
    (some [("x", "y")] ∈ (AuthorizedSession_request ⟨[401], 2⟩
        ⟨fun c h => (c, headersInsert h "authorization" c), fun c => c ++ "1"⟩
        (fun k => if k = 0 then ⟨401, 0, 0, 0⟩ else ⟨200, 0, 0, 0⟩)
        "tok" (some [("x", "y")]) none 0).headersSeen
      ∧ 1 < (AuthorizedSession_request ⟨[401], 2⟩
        ⟨fun c h => (c, headersInsert h "authorization" c), fun c => c ++ "1"⟩
        (fun k => if k = 0 then ⟨401, 0, 0, 0⟩ else ⟨200, 0, 0, 0⟩)
        "tok" (some [("x", "y")]) none 0).sentHeaders.length)
    ∧ (some [("x", "y")] : Option Headers) = some [("x", "y")]
    ∧ (AuthorizedSession_request ⟨[401], 2⟩
        ⟨fun c h => (c, headersInsert h "authorization" c), fun c => c ++ "1"⟩
        (fun k => if k = 0 then ⟨401, 0, 0, 0⟩ else ⟨200, 0, 0, 0⟩)
        "tok" (some [("x", "y")]) none 0).sentHeaders.getD 1 [] =
      (CredOps.before_request
        ⟨fun c h => (c, headersInsert h "authorization" c), fun c => c ++ "1"⟩
        (credAfter ⟨fun c h => (c, headersInsert h "authorization" c),
          fun c => c ++ "1"⟩ [("x", "y")] 1 "tok") [("x", "y")]).2 := by
  have hmem : some [("x", "y")] ∈ (AuthorizedSession_request ⟨[401], 2⟩
      ⟨fun c h => (c, headersInsert h "authorization" c), fun c => c ++ "1"⟩
      (fun k => if k = 0 then ⟨401, 0, 0, 0⟩ else ⟨200, 0, 0, 0⟩)
      "tok" (some [("x", "y")]) none 0).headersSeen := by
    simp [AuthorizedSession_request, guardExit, headersInsert]
  have hlen : 1 < (AuthorizedSession_request ⟨[401], 2⟩
      ⟨fun c h => (c, headersInsert h "authorization" c), fun c => c ++ "1"⟩
      (fun k => if k = 0 then ⟨401, 0, 0, 0⟩ else ⟨200, 0, 0, 0⟩)
      "tok" (some [("x", "y")]) none 0).sentHeaders.length := by
    simp [AuthorizedSession_request, guardExit, headersInsert]
  refine ⟨⟨hmem, hlen⟩, ?_, ?_⟩
  · exact (transport_headers_not_mutated ⟨[401], 2⟩
      ⟨fun c h => (c, headersInsert h "authorization" c), fun c => c ++ "1"⟩
      (fun k => if k = 0 then ⟨401, 0, 0, 0⟩ else ⟨200, 0, 0, 0⟩)
      "tok" (some [("x", "y")]) none 0).1 (some [("x", "y")]) hmem
  · exact (transport_headers_not_mutated ⟨[401], 2⟩
      ⟨fun c h => (c, headersInsert h "authorization" c), fun c => c ++ "1"⟩
      (fun k => if k = 0 then ⟨401, 0, 0, 0⟩ else ⟨200, 0, 0, 0⟩)
      "tok" (some [("x", "y")]) none 0).2 1 hlen
